import Mathlib

/-
Shallow embedding of the Tempest weather dashboard script (src/app.py).

JSON values returned by the external REST endpoints are modelled by the
inductive type JVal; Python dict access, dict.get with a default, list
indexing and truthiness are modelled by explicit total functions that
return Option where the corresponding Python operation can raise.
External effects (network calls, the generative-model endpoint, the
datetime/strftime rendering of a timestamp) are parameters of the model,
gathered in the Env structure; numeric-to-string rendering of scalar
JSON values abstracts Python str() by exact rational display.
-/

inductive JVal where
  | jnull
  | jbool (b : Bool)
  | jnum (q : ℚ)
  | jstr (s : String)
  | jarr (xs : List JVal)
  | jobj (fields : List (String × JVal))

/-- Python: value is a dict and we read d.get(key, dflt); on a non-dict
the attribute access raises, modelled by none. -/
def JVal.pyGet (j : JVal) (key : String) (dflt : JVal) : Option JVal :=
  match j with
  | .jobj fs => some ((fs.lookup key).getD dflt)
  | _ => none

/-- Python: d[key] on a JSON value; raises (none) unless a dict with the key. -/
def JVal.pyIndex (j : JVal) (key : String) : Option JVal :=
  match j with
  | .jobj fs => fs.lookup key
  | _ => none

def JVal.asObj : JVal → Option (List (String × JVal))
  | .jobj fs => some fs
  | _ => none

def JVal.asArr : JVal → Option (List JVal)
  | .jarr xs => some xs
  | _ => none

/-- Values usable where Python expects a number (int, float, bool). -/
def JVal.asNum : JVal → Option ℚ
  | .jnum q => some q
  | .jbool b => some (if b then 1 else 0)
  | _ => none

/-- Python str() of a scalar JSON value, as interpolated by f-strings in the
script. Containers never reach an f-string in any behaviour the claims
examine, so their rendering is abstracted to fixed markers; numbers render
as exact rationals (integers drop the denominator). -/
def JVal.pyStr : JVal → String
  | .jnull => "None"
  | .jbool true => "True"
  | .jbool false => "False"
  | .jnum q => if q.den = 1 then toString q.num else toString q
  | .jstr s => s
  | .jarr _ => "<list>"
  | .jobj _ => "<dict>"

/-- Python int() truncation toward zero of an exact value. -/
def pyTrunc (q : ℚ) : ℤ := if 0 ≤ q then ⌊q⌋ else ⌈q⌉

def compass_labels : List String :=
  ["N", "NNE", "NE", "ENE", "E", "ESE", "SE", "SSE",
   "S", "SSW", "SW", "WSW", "W", "WNW", "NW", "NNW"]

/-- src/app.py lines 49-53. none models Python None; the inner indexing
uses Python % (Euclidean for a positive modulus, as Int.emod). The result
is Option String because list indexing could in principle raise; the
totality theorems show it never does. -/
def deg_to_compass (num : Option ℚ) : Option String :=
  match num with
  | none => some "Unknown"
  | some n => compass_labels[(pyTrunc (n / 22.5 + 0.5) % 16).toNat]?

/-- Wrapper applying deg_to_compass to the JSON value stored in the session,
as the script does; a non-numeric, non-null value makes the division raise. -/
def deg_to_compass_of_jval : JVal → Option String
  | .jnull => deg_to_compass none
  | .jnum q => deg_to_compass (some q)
  | .jbool b => deg_to_compass (some (if b then 1 else 0))
  | _ => none

/-- src/app.py lines 31-35: the prioritized candidate model list. -/
def models_to_try : List String :=
  ["gemini-2.5-flash-lite", "gemini-2.5-flash", "gemini-3-flash"]

/-- The loop of ask_gemini_smartly over an arbitrary candidate list.
invoke models one generate_content call: some text on success, none when
the call raises (quota, invalid model name, transient error, blocked
response). -/
def try_models (invoke : String → String → Option String)
    (prompt_text : String) : List String → Option String
  | [] => none
  | m :: rest =>
    match invoke m prompt_text with
    | some t => some t
    | none => try_models invoke prompt_text rest

/-- src/app.py lines 25-45. -/
def ask_gemini_smartly (invoke : String → String → Option String)
    (prompt_text : String) : Option String :=
  try_models invoke prompt_text models_to_try

/-- Resolved station record, src/app.py lines 60-64. The id and the
coordinates are kept as raw JSON values, as the script does. -/
structure StationInfo where
  id : JVal
  lat : JVal
  lon : JVal

/-- src/app.py lines 55-67, the part after the network call: extracting
the first station of the response. Any failure (missing key, non-dict,
non-list, empty station list) is the exception caught on line 65. -/
def extract_station (resp : JVal) : Option StationInfo := do
  let fs ← resp.asObj
  let stationsv ← fs.lookup "stations"
  let arr ← stationsv.asArr
  let st0 ← arr.head?
  let sfs ← st0.asObj
  let id ← sfs.lookup "station_id"
  let lat ← sfs.lookup "latitude"
  let lon ← sfs.lookup "longitude"
  pure ⟨id, lat, lon⟩

/-- get_station_info with the network call abstracted: none for resp is a
raised transport error, some v the decoded JSON body. -/
def get_station_info (resp : Option JVal) : Option StationInfo :=
  resp.bind extract_station

/-- src/app.py lines 73-82. none for resp models a raised transport error.
Inside the try block, a response that is not a dict, has no features key,
a non-list features value, or elements without properties all end in an
empty list (either by the explicit return or through the bare except). -/
def get_nws_alerts (resp : Option JVal) : List JVal :=
  (do
    let r ← resp
    let fs ← r.asObj
    match fs.lookup "features" with
    | none => some []
    | some fv => do
      let arr ← fv.asArr
      if arr.length > 0 then
        arr.mapM (fun (f : JVal) => do
          let ffs ← f.asObj
          ffs.lookup "properties")
      else
        some []
  ).getD []

/-- The eight values extracted from the current_conditions block,
src/app.py lines 120-130, kept as raw JSON values. -/
structure CurrentConditions where
  conditions : JVal
  air_temperature : JVal
  relative_humidity : JVal
  wind_avg : JVal
  wind_direction : JVal
  precip_accum_local_day : JVal
  sea_level_pressure : JVal
  pressure_trend : JVal

/-- src/app.py lines 120-130: current = data.get with default of an empty
dict, then one .get per field with its default. none models the raise
that occurs when data or the current_conditions value is not a dict. -/
def parse_current_conditions (data : JVal) : Option CurrentConditions := do
  let current ← data.pyGet "current_conditions" (.jobj [])
  let conditions ← current.pyGet "conditions" (.jstr "Unknown")
  let air_temperature ← current.pyGet "air_temperature" (.jnum 0)
  let relative_humidity ← current.pyGet "relative_humidity" (.jnum 0)
  let wind_avg ← current.pyGet "wind_avg" (.jnum 0)
  let wind_direction ← current.pyGet "wind_direction" (.jnum 0)
  let precip_accum_local_day ← current.pyGet "precip_accum_local_day" (.jnum 0)
  let sea_level_pressure ← current.pyGet "sea_level_pressure" (.jnum 0)
  let pressure_trend ← current.pyGet "pressure_trend" (.jstr "")
  pure ⟨conditions, air_temperature, relative_humidity, wind_avg,
        wind_direction, precip_accum_local_day, sea_level_pressure,
        pressure_trend⟩

/-- Python str.capitalize: first character upper, rest lower. -/
def pyCapitalize (s : String) : String :=
  (s.take 1).toUpper ++ (s.drop 1).toLower

/-- src/app.py lines 163-170: the pressure delta string. The outer Option
models a raise (calling .lower on a non-string truthy value); the inner
Option is the delta being shown or not. -/
def trend_delta (trend : JVal) : Option (Option String) :=
  match trend with
  | .jstr s =>
      if s = "" then some none
      else if s.toLower = "falling" then some (some ("- " ++ pyCapitalize s))
      else if s.toLower = "rising" then some (some ("+ " ++ pyCapitalize s))
      else some (some (pyCapitalize s))
  | .jnull => some none
  | .jbool b => if b then none else some none
  | .jnum q => if q = 0 then some none else none
  | .jarr xs => if xs.isEmpty then some none else none
  | .jobj fs => if fs.isEmpty then some none else none

/-- src/app.py lines 172-181: the metric f-strings format temperature,
pressure, wind and rain with numeric format specs, which raise on
non-numeric values; condition and humidity are interpolated with str. -/
def metrics_ok (cc : CurrentConditions) : Bool :=
  cc.air_temperature.asNum.isSome && cc.sea_level_pressure.asNum.isSome &&
  cc.wind_avg.asNum.isSome && cc.precip_accum_local_day.asNum.isSome

/-- One line of the 5-day forecast text, src/app.py line 146. -/
def daily_line (dayname : String) (high low cond pop : JVal) : String :=
  "- " ++ dayname ++ ": High " ++ high.pyStr ++ "F, Low " ++ low.pyStr ++
  "F, " ++ cond.pyStr ++ " (" ++ pop.pyStr ++ "% Rain Chance)\n"

/-- The loop body of src/app.py lines 137-146 over the first 7 daily
entries. day_name models datetime.fromtimestamp + strftime of the
timestamp; indexing day_start_local with brackets raises when the key is
missing or the entry is not a dict, the other fields use .get defaults. -/
def daily_lines (day_name : ℚ → String) : List JVal → Option String
  | [] => some ""
  | d :: rest => do
      let fs ← d.asObj
      let tsv ← fs.lookup "day_start_local"
      let ts ← tsv.asNum
      let high := (fs.lookup "air_temp_high").getD (.jstr "N/A")
      let low := (fs.lookup "air_temp_low").getD (.jstr "N/A")
      let cond := (fs.lookup "conditions").getD (.jstr "N/A")
      let pop := (fs.lookup "precip_probability").getD (.jnum 0)
      let restTxt ← daily_lines day_name rest
      pure (daily_line (day_name ts) high low cond pop ++ restTxt)

/-- src/app.py lines 134-148: builds the forecast text block; any raise
inside the try block replaces the whole text. -/
def daily_forecast_text_of (day_name : ℚ → String) (data : JVal) : String :=
  (do
    let fc ← data.pyIndex "forecast"
    let daily ← fc.pyIndex "daily"
    let arr ← daily.asArr
    daily_lines day_name (arr.take 7)
  ).getD "Forecast data unavailable."

/-- src/app.py lines 192-204: the weekly outlook prompt. -/
def outlook_prompt (daily_forecast_text : String) : String :=
  "\n        Act as a Weather Strategist for a home called \"Ramsey Ct\".\n" ++
  "        Here is the 7-day forecast:\n        " ++ daily_forecast_text ++
  "\n        \n        Write a \"Weekly Outlook\" for the user.\n" ++
  "        1. **Headline:** A 4-6 word summary of the week.\n" ++
  "        2. **Trend:** Are we warming up or cooling down?\n" ++
  "        3. **Key Days:** Mention specific days to watch out for.\n" ++
  "        4. **Advice:** One practical tip.\n        \n" ++
  "        Keep it concise and formatted with Markdown.\n        "

/-- src/app.py lines 271-282: the Q and A prompt. Its inputs are the five
live metric values, the compass direction, the forecast text and the user
question; the active alerts are not among them. -/
def system_context (pres trend hum temp wind : JVal) (cardinal : String)
    (rain : JVal) (daily_forecast_text : String) (question : String) : String :=
  "\n        Act as a Meteorology Professor for Ramsey Ct.\n" ++
  "        LIVE DATA:\n" ++
  "        - Pressure: " ++ pres.pyStr ++ " inHg (" ++ trend.pyStr ++ ")\n" ++
  "        - Humidity: " ++ hum.pyStr ++ "%\n" ++
  "        - Temp: " ++ temp.pyStr ++ " F\n" ++
  "        - Wind: " ++ wind.pyStr ++ " mph (from " ++ cardinal ++ ")\n" ++
  "        - Rain Today: " ++ rain.pyStr ++ " inches\n" ++
  "        FORECAST:\n        " ++ daily_forecast_text ++
  "\n        USER QUESTION: \"" ++ question ++ "\"\n        "

/-- src/app.py line 292. -/
def fallback_msg : String :=
  "I\x27m currently resting (All API Models Busy). Please check back in a minute!"

/-- One entry of the conversation log. -/
structure Message where
  role : String
  content : String
deriving DecidableEq

/-- The st.session_state keys the script reads and writes; none models a
key that is absent. -/
structure SessionState where
  messages : List Message
  weather_data : Option JVal
  station_info : Option StationInfo
  alerts : Option (List JVal)
  weekly_outlook : Option String

/-- The external world of one script run: the three REST responses (none
models a raised transport error), the generative endpoint (model name and
prompt to outcome), the timestamp-to-weekday rendering, the chat box
content and the refresh button. -/
structure Env where
  stations_resp : Option JVal
  forecast_resp : Option JVal
  alerts_resp : Option JVal
  invoke : String → String → Option String
  day_name : ℚ → String
  chat_input : Option String
  refresh_clicked : Bool

/-- Observable events of one script run, in order. -/
inductive Effect where
  | fetch_station
  | fetch_forecast (station_id : JVal)
  | fetch_alerts (lat lon : JVal)
  | show_alert (a : JVal)
  | render_metrics
  | show_outlook (text : String)
  | st_error (msg : String)
  | st_stop
  | st_rerun

structure RunResult where
  state : SessionState
  effects : List Effect

/-- src/app.py lines 152-158: each alert is read with .get calls, which
raise on a non-dict element. -/
def alerts_view : List JVal → Option (List Effect)
  | [] => some []
  | a :: rest =>
    match a with
    | .jobj fs => (alerts_view rest).map (fun es => .show_alert (.jobj fs) :: es)
    | _ => none

/-- The answer the chat shows and logs, src/app.py lines 286-294: the
response text when it is truthy (present and non-empty), the fixed
fallback message otherwise. -/
def answer_of (r : Option String) : String :=
  match r with
  | some t => if t = "" then fallback_msg else t
  | none => fallback_msg

/-- What the outlook cache receives from a generation result, src/app.py
lines 205-209: the text when truthy, nothing otherwise. -/
def cache_of (r : Option String) : Option String :=
  match r with
  | some t => if t = "" then none else some t
  | none => none

/-- src/app.py lines 186-213: read the cached outlook, else generate it
and cache only a truthy answer (line 207 tests truthiness, not presence).
Returns the new state and the content shown, which line 211 also gates on
truthiness. -/
def outlook_step (env : Env) (st : SessionState) (daily_text : String) :
    SessionState × Option String :=
  match st.weekly_outlook with
  | some c => (st, if c = "" then none else some c)
  | none =>
    match ask_gemini_smartly env.invoke (outlook_prompt daily_text) with
    | some t =>
      if t = "" then (st, none)
      else ({ st with weekly_outlook := some t }, some t)
    | none => (st, none)

/-- src/app.py lines 265-294: the chat interface. Line 288 tests the
response for truthiness, so an empty response text also falls back. -/
def chat_step (env : Env) (st : SessionState) (cc : CurrentConditions)
    (cardinal : String) (daily_text : String) : SessionState :=
  match env.chat_input with
  | none => st
  | some question =>
    let st1 := { st with messages := st.messages ++ [(⟨"user", question⟩ : Message)] }
    let ctx := system_context cc.sea_level_pressure cc.pressure_trend
      cc.relative_humidity cc.air_temperature cc.wind_avg cardinal
      cc.precip_accum_local_day daily_text question
    { st1 with messages := st1.messages ++
        [(⟨"assistant", answer_of (ask_gemini_smartly env.invoke ctx)⟩ : Message)] }

/-- src/app.py lines 296-301: the refresh button deletes both cache keys
and reruns. -/
def refresh_step (env : Env) (st : SessionState) : SessionState × List Effect :=
  if env.refresh_clicked then
    ({ st with weather_data := none, weekly_outlook := none }, [Effect.st_rerun])
  else
    (st, [])

/-- src/app.py lines 116-301: everything after the data-fetch block. Any
raise lands in the outer except on line 303, which shows an error and ends
the run with the state as it stood. -/
def run_body (env : Env) (st : SessionState) (eff0 : List Effect) : RunResult :=
  match st.weather_data with
  | none => ⟨st, eff0 ++ [Effect.st_error "Error"]⟩
  | some data =>
    match st.alerts with
    | none => ⟨st, eff0 ++ [Effect.st_error "Error"]⟩
    | some alerts =>
      match parse_current_conditions data with
      | none => ⟨st, eff0 ++ [Effect.st_error "Error"]⟩
      | some cc =>
        match deg_to_compass_of_jval cc.wind_direction with
        | none => ⟨st, eff0 ++ [Effect.st_error "Error"]⟩
        | some cardinal =>
          let daily_text := daily_forecast_text_of env.day_name data
          match alerts_view alerts with
          | none => ⟨st, eff0 ++ [Effect.st_error "Error"]⟩
          | some alert_effs =>
            match trend_delta cc.pressure_trend with
            | none => ⟨st, eff0 ++ alert_effs ++ [Effect.st_error "Error"]⟩
            | some _ =>
              if metrics_ok cc then
                let so := outlook_step env st daily_text
                let outlook_effs := match so.2 with
                  | some c => [Effect.show_outlook c]
                  | none => []
                let st3 := chat_step env so.1 cc cardinal daily_text
                let sr := refresh_step env st3
                ⟨sr.1, eff0 ++ alert_effs ++ [Effect.render_metrics] ++
                       outlook_effs ++ sr.2⟩
              else
                ⟨st, eff0 ++ alert_effs ++ [Effect.st_error "Error"]⟩

/-- One full script run, src/app.py lines 104-304. The fetch block runs
only when weather_data is absent; a station failure shows an error and
stops (st.stop), a forecast failure raises to the outer except, an alert
failure degrades to an empty list; after a successful fetch the cached
outlook key is deleted. -/
def run (env : Env) (st : SessionState) : RunResult :=
  match st.weather_data with
  | some _ => run_body env st []
  | none =>
    match get_station_info env.stations_resp with
    | none =>
      ⟨st, [Effect.fetch_station, Effect.st_error "Error finding station",
            Effect.st_stop]⟩
    | some info =>
      let st1 := { st with station_info := some info }
      match env.forecast_resp with
      | none =>
        ⟨st1, [Effect.fetch_station, Effect.fetch_forecast info.id,
               Effect.st_error "Error"]⟩
      | some wd =>
        let al := get_nws_alerts env.alerts_resp
        let st2 := { st1 with weather_data := some wd, alerts := some al,
                              weekly_outlook := none }
        run_body env st2 [Effect.fetch_station, Effect.fetch_forecast info.id,
                          Effect.fetch_alerts info.lat info.lon]

/- ===== helper lemmas ===== -/

theorem try_models_eq_head (invoke : String → String → Option String)
    (pt : String) :
    ∀ l : List String,
      try_models invoke pt l = (l.filterMap (fun m => invoke m pt)).head?
  | [] => rfl
  | m :: rest => by
    simp only [try_models, List.filterMap_cons]
    cases h : invoke m pt with
    | none => simp [try_models_eq_head invoke pt rest]
    | some t => simp

theorem try_models_none (invoke : String → String → Option String)
    (pt : String) :
    ∀ l : List String, (∀ m ∈ l, invoke m pt = none) →
      try_models invoke pt l = none
  | [], _ => rfl
  | m :: rest, h => by
    simp only [try_models, h m (by simp)]
    exact try_models_none invoke pt rest (fun m2 hm2 => h m2 (by simp [hm2]))

theorem deg_to_compass_total_aux (q : ℚ) :
    (0 ≤ pyTrunc (q / 22.5 + 0.5) % 16 ∧ pyTrunc (q / 22.5 + 0.5) % 16 < 16)
    ∧ ∃ l, deg_to_compass (some q) = some l ∧ l ∈ compass_labels := by
  have h0 : 0 ≤ pyTrunc (q / 22.5 + 0.5) % 16 :=
    Int.emod_nonneg _ (by norm_num)
  have h1 : pyTrunc (q / 22.5 + 0.5) % 16 < 16 :=
    Int.emod_lt_of_pos _ (by norm_num)
  have h2 : (pyTrunc (q / 22.5 + 0.5) % 16).toNat < compass_labels.length := by
    simp only [compass_labels, List.length]
    omega
  refine ⟨⟨h0, h1⟩, ⟨compass_labels[(pyTrunc (q / 22.5 + 0.5) % 16).toNat], ?_, ?_⟩⟩
  · simp only [deg_to_compass]
    exact List.getElem?_eq_getElem h2
  · exact List.getElem_mem h2

theorem deg_to_compass_eval (n : ℚ) (k : ℤ)
    (hk : pyTrunc (n / 22.5 + 0.5) = k) :
    deg_to_compass (some n) = compass_labels[(k % 16).toNat]? := by
  simp only [deg_to_compass, hk]

theorem deg_to_compass_zero : deg_to_compass (some 0) = some "N" := by
  rw [deg_to_compass_eval 0 0 (by rw [pyTrunc, if_pos (by norm_num)]; norm_num)]
  decide

theorem deg_to_compass_360 : deg_to_compass (some 360) = some "N" := by
  rw [deg_to_compass_eval 360 16 (by rw [pyTrunc, if_pos (by norm_num)]; norm_num)]
  decide

/- ===== C1 ===== -/

/-- C1: the fallback tries the prioritized candidates strictly in order:
when the first two candidates fail and the third succeeds, the result is
exactly the third response text (no failure surfaced, the result type
carries no error); when every candidate in models_to_try fails, the result
is the sentinel none, an absence rather than an error. -/
theorem fallback_tries_in_order (invoke : String → String → Option String)
    (pt : String) :
    (∀ t, invoke "gemini-2.5-flash-lite" pt = none →
      invoke "gemini-2.5-flash" pt = none →
      invoke "gemini-3-flash" pt = some t →
      ask_gemini_smartly invoke pt = some t)
    ∧ ((∀ m ∈ models_to_try, invoke m pt = none) →
      ask_gemini_smartly invoke pt = none) := by
  constructor
  · intro t h1 h2 h3
    simp [ask_gemini_smartly, models_to_try, try_models, h1, h2, h3]
  · intro h
    exact try_models_none invoke pt models_to_try h

/-- Witness for C1 at a concrete run: the first two candidates fail, the
third answers, and the all-fail case returns none. -/
theorem fallback_tries_in_order_witness :
    ask_gemini_smartly
      (fun m _ => if m = "gemini-3-flash" then some "from-C" else none) "q"
      = some "from-C"
    ∧ ask_gemini_smartly (fun _ _ => none) "q" = none :=
  ⟨(fallback_tries_in_order
      (fun m _ => if m = "gemini-3-flash" then some "from-C" else none) "q").1
      "from-C" (by decide) (by decide) (by decide),
   (fallback_tries_in_order (fun _ _ => none) "q").2 (fun m _ => rfl)⟩

/- ===== C10 ===== -/

/-- C10: the fallback invocation never raises to its caller: for every
outcome of the three sequential candidate attempts it returns exactly the
first successful response text, and none when there is no success (the
result is total, so callers never observe a propagated error). -/
theorem ask_gemini_smartly_never_raises
    (invoke : String → String → Option String) (pt : String) :
    ask_gemini_smartly invoke pt =
      (models_to_try.filterMap (fun m => invoke m pt)).head? :=
  try_models_eq_head invoke pt models_to_try

/- ===== C2 ===== -/

/-- C2: on degrees 0 to 359 the converter returns one of the 16 labels;
the index is the nearest integer of the degree divided by 22.5, modulo
16, into the label list starting at N; absent input gives Unknown; degree
0 and degree 360 both map to N. -/
theorem deg_to_compass_spec :
    (∀ d : ℕ, d ≤ 359 →
      ∃ l, deg_to_compass (some (d : ℚ)) = some l ∧ l ∈ compass_labels)
    ∧ (∀ d : ℕ, deg_to_compass (some (d : ℚ)) =
        compass_labels[(round ((d : ℚ) / 22.5) % 16).toNat]?)
    ∧ deg_to_compass none = some "Unknown"
    ∧ deg_to_compass (some 0) = some "N"
    ∧ deg_to_compass (some 360) = some "N" := by
  refine ⟨fun d _ => (deg_to_compass_total_aux (d : ℚ)).2, fun d => ?_,
    rfl, deg_to_compass_zero, deg_to_compass_360⟩
  have h : pyTrunc ((d : ℚ) / 22.5 + 0.5) = round ((d : ℚ) / 22.5) := by
    rw [pyTrunc, if_pos (by positivity), round_eq]
    norm_num
  simp only [deg_to_compass, h]

/-- Witness for C2: degree 100 is inside the range and yields a label. -/
theorem deg_to_compass_spec_witness :
    ∃ l, deg_to_compass (some ((100 : ℕ) : ℚ)) = some l ∧ l ∈ compass_labels :=
  deg_to_compass_spec.1 100 (by norm_num)

/- ===== C9 ===== -/

/-- C9: the converter is total over all rational degree inputs, negative
and above 360 included: the Euclidean modulo used for the index always
lies in 0..15, so the function always returns one of the 16 labels and
never fails. -/
theorem deg_to_compass_total (q : ℚ) :
    (0 ≤ pyTrunc (q / 22.5 + 0.5) % 16 ∧ pyTrunc (q / 22.5 + 0.5) % 16 < 16)
    ∧ ∃ l, deg_to_compass (some q) = some l ∧ l ∈ compass_labels :=
  deg_to_compass_total_aux q

/- ===== run characterization helpers ===== -/

theorem outlook_step_snd (env : Env) (st : SessionState) (dt : String)
    (h : st.weekly_outlook = none) :
    (outlook_step env st dt).2 =
      cache_of (ask_gemini_smartly env.invoke (outlook_prompt dt)) := by
  unfold outlook_step
  rw [h]
  cases hask : ask_gemini_smartly env.invoke (outlook_prompt dt) with
  | none => simp [cache_of]
  | some t => by_cases ht : t = "" <;> simp [cache_of, ht]

theorem outlook_step_weekly_outlook (env : Env) (st : SessionState)
    (dt : String) (h : st.weekly_outlook = none) :
    (outlook_step env st dt).1.weekly_outlook =
      cache_of (ask_gemini_smartly env.invoke (outlook_prompt dt)) := by
  unfold outlook_step
  rw [h]
  cases hask : ask_gemini_smartly env.invoke (outlook_prompt dt) with
  | none => simp [cache_of, h]
  | some t => by_cases ht : t = "" <;> simp [cache_of, ht, h]

theorem outlook_step_weather_data (env : Env) (st : SessionState)
    (dt : String) : (outlook_step env st dt).1.weather_data = st.weather_data := by
  unfold outlook_step
  cases st.weekly_outlook with
  | some c => rfl
  | none =>
    cases ask_gemini_smartly env.invoke (outlook_prompt dt) with
    | none => rfl
    | some t => by_cases ht : t = "" <;> simp [ht]

theorem outlook_step_alerts (env : Env) (st : SessionState) (dt : String) :
    (outlook_step env st dt).1.alerts = st.alerts := by
  unfold outlook_step
  cases st.weekly_outlook with
  | some c => rfl
  | none =>
    cases ask_gemini_smartly env.invoke (outlook_prompt dt) with
    | none => rfl
    | some t => by_cases ht : t = "" <;> simp [ht]

theorem outlook_step_messages (env : Env) (st : SessionState) (dt : String) :
    (outlook_step env st dt).1.messages = st.messages := by
  unfold outlook_step
  cases st.weekly_outlook with
  | some c => rfl
  | none =>
    cases ask_gemini_smartly env.invoke (outlook_prompt dt) with
    | none => rfl
    | some t => by_cases ht : t = "" <;> simp [ht]

theorem chat_step_messages (env : Env) (st : SessionState)
    (cc : CurrentConditions) (cardinal dt q : String)
    (h : env.chat_input = some q) :
    (chat_step env st cc cardinal dt).messages =
      st.messages ++ [⟨"user", q⟩,
        ⟨"assistant",
          answer_of (ask_gemini_smartly env.invoke
            (system_context cc.sea_level_pressure cc.pressure_trend
              cc.relative_humidity cc.air_temperature cc.wind_avg cardinal
              cc.precip_accum_local_day dt q))⟩] := by
  simp [chat_step, h]

theorem chat_step_weekly_outlook (env : Env) (st : SessionState)
    (cc : CurrentConditions) (cardinal dt : String) :
    (chat_step env st cc cardinal dt).weekly_outlook = st.weekly_outlook := by
  cases hci : env.chat_input with
  | none => simp [chat_step, hci]
  | some q => simp [chat_step, hci]

theorem chat_step_weather_data (env : Env) (st : SessionState)
    (cc : CurrentConditions) (cardinal dt : String) :
    (chat_step env st cc cardinal dt).weather_data = st.weather_data := by
  cases hci : env.chat_input with
  | none => simp [chat_step, hci]
  | some q => simp [chat_step, hci]

theorem chat_step_alerts (env : Env) (st : SessionState)
    (cc : CurrentConditions) (cardinal dt : String) :
    (chat_step env st cc cardinal dt).alerts = st.alerts := by
  cases hci : env.chat_input with
  | none => simp [chat_step, hci]
  | some q => simp [chat_step, hci]

theorem refresh_step_messages (env : Env) (st : SessionState) :
    (refresh_step env st).1.messages = st.messages := by
  unfold refresh_step
  by_cases h : env.refresh_clicked <;> simp [h]

theorem refresh_step_alerts (env : Env) (st : SessionState) :
    (refresh_step env st).1.alerts = st.alerts := by
  unfold refresh_step
  by_cases h : env.refresh_clicked <;> simp [h]

theorem refresh_step_clicked (env : Env) (st : SessionState)
    (h : env.refresh_clicked = true) :
    (refresh_step env st).1.weather_data = none
    ∧ (refresh_step env st).1.weekly_outlook = none := by
  unfold refresh_step
  simp [h]

theorem refresh_step_not_clicked (env : Env) (st : SessionState)
    (h : env.refresh_clicked = false) :
    (refresh_step env st).1 = st := by
  unfold refresh_step
  simp [h]

theorem refresh_step_weekly_outlook_none (env : Env) (st : SessionState)
    (h : st.weekly_outlook = none) :
    (refresh_step env st).1.weekly_outlook = none := by
  unfold refresh_step
  by_cases hc : env.refresh_clicked <;> simp [hc, h]

/-- The run with a cached forecast goes straight to the body. -/
theorem run_cached (env : Env) (st : SessionState) (d : JVal)
    (hwd : st.weather_data = some d) :
    run env st = run_body env st [] := by
  unfold run
  rw [hwd]

/-- The run with no cached forecast and successful station and forecast
fetches: the three endpoints are hit in order, the alerts come from the
degrading fetcher, and the cached outlook key is deleted before the body
runs. -/
theorem run_fetch (env : Env) (st : SessionState) (info : StationInfo)
    (wd : JVal)
    (hwd : st.weather_data = none)
    (hst : get_station_info env.stations_resp = some info)
    (hfc : env.forecast_resp = some wd) :
    run env st = run_body env
      { st with station_info := some info, weather_data := some wd,
                alerts := some (get_nws_alerts env.alerts_resp),
                weekly_outlook := none }
      [Effect.fetch_station, Effect.fetch_forecast info.id,
       Effect.fetch_alerts info.lat info.lon] := by
  unfold run
  rw [hwd, hst, hfc]

/-- The body under the hypotheses that make every dashboard stage succeed. -/
theorem run_body_good (env : Env) (st : SessionState) (data : JVal)
    (alerts : List JVal) (cc : CurrentConditions) (cardinal : String)
    (alert_effs : List Effect) (dlt : Option String) (eff0 : List Effect)
    (hwd : st.weather_data = some data)
    (hal : st.alerts = some alerts)
    (hcc : parse_current_conditions data = some cc)
    (hcard : deg_to_compass_of_jval cc.wind_direction = some cardinal)
    (hav : alerts_view alerts = some alert_effs)
    (htd : trend_delta cc.pressure_trend = some dlt)
    (hm : metrics_ok cc = true) :
    run_body env st eff0 =
      ⟨(refresh_step env
          (chat_step env
            (outlook_step env st (daily_forecast_text_of env.day_name data)).1
            cc cardinal (daily_forecast_text_of env.day_name data))).1,
       eff0 ++ alert_effs ++ [Effect.render_metrics] ++
       (match (outlook_step env st (daily_forecast_text_of env.day_name data)).2 with
        | some c => [Effect.show_outlook c]
        | none => []) ++
       (refresh_step env
          (chat_step env
            (outlook_step env st (daily_forecast_text_of env.day_name data)).1
            cc cardinal (daily_forecast_text_of env.day_name data))).2⟩ := by
  unfold run_body
  simp only [hwd, hal, hcc, hcard, hav, htd, hm, if_true]

/-- The record produced by parsing an empty current_conditions block. -/
def default_conditions : CurrentConditions :=
  ⟨JVal.jstr "Unknown", JVal.jnum 0, JVal.jnum 0, JVal.jnum 0, JVal.jnum 0,
   JVal.jnum 0, JVal.jnum 0, JVal.jstr ""⟩

theorem deg_to_compass_of_jval_zero :
    deg_to_compass_of_jval (JVal.jnum 0) = some "N" := deg_to_compass_zero

/- ===== C7 ===== -/

/-- C7: when station resolution fails (transport error, malformed
response or empty station list), the run shows a fatal error and stops:
the state is untouched and no forecast fetch and no alert fetch appears
anywhere in the run trace. -/
theorem station_failure_halts (env : Env) (st : SessionState)
    (hwd : st.weather_data = none)
    (hfail : get_station_info env.stations_resp = none) :
    (run env st).state = st
    ∧ (run env st).effects =
        [Effect.fetch_station, Effect.st_error "Error finding station",
         Effect.st_stop]
    ∧ (∀ sid, Effect.fetch_forecast sid ∉ (run env st).effects)
    ∧ (∀ la lo, Effect.fetch_alerts la lo ∉ (run env st).effects) := by
  have h : run env st =
      ⟨st, [Effect.fetch_station, Effect.st_error "Error finding station",
            Effect.st_stop]⟩ := by
    unfold run
    rw [hwd, hfail]
  rw [h]
  refine ⟨rfl, rfl, fun sid => ?_, fun la lo => ?_⟩ <;> simp

/-- A stations response whose station list is empty. -/
def empty_station_resp : JVal := JVal.jobj [("stations", JVal.jarr [])]

def st_empty : SessionState := ⟨[], none, none, none, none⟩

def station_fail_env : Env :=
  { stations_resp := some empty_station_resp,
    forecast_resp := some (JVal.jobj []), alerts_resp := some (JVal.jobj []),
    invoke := fun _ _ => none, day_name := fun _ => "Monday",
    chat_input := none, refresh_clicked := false }

/-- Witness for C7: an empty station list halts the session with no
forecast or alert fetch in the trace. -/
theorem station_failure_halts_witness :
    (run station_fail_env st_empty).state = st_empty
    ∧ (run station_fail_env st_empty).effects =
        [Effect.fetch_station, Effect.st_error "Error finding station",
         Effect.st_stop]
    ∧ (∀ sid, Effect.fetch_forecast sid ∉ (run station_fail_env st_empty).effects)
    ∧ (∀ la lo,
        Effect.fetch_alerts la lo ∉ (run station_fail_env st_empty).effects) :=
  station_failure_halts station_fail_env st_empty rfl rfl

/- ===== C6 ===== -/

/-- C6: the alert fetcher returns an empty collection on any failure — a
raised transport error or a response without a features field — and alert
failure never blocks the dashboard: with a failing alert endpoint the
session alert list is empty and the metrics still render. -/
theorem alerts_fail_graceful :
    get_nws_alerts none = []
    ∧ (∀ fs : List (String × JVal), fs.lookup "features" = none →
        get_nws_alerts (some (JVal.jobj fs)) = [])
    ∧ (∀ env st info wd cc cardinal dlt,
        st.weather_data = none →
        env.alerts_resp = none →
        get_station_info env.stations_resp = some info →
        env.forecast_resp = some wd →
        parse_current_conditions wd = some cc →
        deg_to_compass_of_jval cc.wind_direction = some cardinal →
        trend_delta cc.pressure_trend = some dlt →
        metrics_ok cc = true →
        (run env st).state.alerts = some []
        ∧ Effect.render_metrics ∈ (run env st).effects) := by
  refine ⟨rfl, fun fs h => ?_, ?_⟩
  · simp [get_nws_alerts, JVal.asObj, h]
  · intro env st info wd cc cardinal dlt h1 h2 h3 h4 h5 h6 h7 h8
    have han : get_nws_alerts env.alerts_resp = [] := by rw [h2]; rfl
    rw [run_fetch env st info wd h1 h3 h4,
      run_body_good env _ wd [] cc cardinal [] dlt _ rfl (by rw [han]) h5 h6
        rfl h7 h8]
    constructor
    · rw [refresh_step_alerts, chat_step_alerts, outlook_step_alerts]
      show some (get_nws_alerts env.alerts_resp) = some []
      rw [han]
    · simp

def alerts_fail_env : Env :=
  { stations_resp := some (JVal.jobj [("stations", JVal.jarr [JVal.jobj
      [("station_id", JVal.jnum 1), ("latitude", JVal.jnum 2),
       ("longitude", JVal.jnum 3)]])]),
    forecast_resp := some (JVal.jobj []),
    alerts_resp := none,
    invoke := fun _ _ => none, day_name := fun _ => "Monday",
    chat_input := none, refresh_clicked := false }

/-- Witness for C6: the alert endpoint raises, the alert list is empty
and the metrics render. -/
theorem alerts_fail_graceful_witness :
    (run alerts_fail_env st_empty).state.alerts = some []
    ∧ Effect.render_metrics ∈ (run alerts_fail_env st_empty).effects :=
  alerts_fail_graceful.2.2 alerts_fail_env st_empty
    ⟨JVal.jnum 1, JVal.jnum 2, JVal.jnum 3⟩ (JVal.jobj [])
    default_conditions "N" none rfl rfl rfl rfl rfl
    deg_to_compass_of_jval_zero rfl rfl

/- ===== C3 ===== -/

/-- C3: clicking refresh on a rendered dashboard clears both the cached
forecast and the cached outlook; and on the next run, with the cache
empty, the forecast is refetched and the outlook shown or stored can only
be the one regenerated by the model from the newly fetched data (whatever
outlook was cached before the fetch is deleted before it is read). -/
theorem refresh_clears_and_regenerates :
    (∀ env st data alerts cc cardinal alert_effs dlt,
      st.weather_data = some data → st.alerts = some alerts →
      parse_current_conditions data = some cc →
      deg_to_compass_of_jval cc.wind_direction = some cardinal →
      alerts_view alerts = some alert_effs →
      trend_delta cc.pressure_trend = some dlt →
      metrics_ok cc = true →
      env.refresh_clicked = true →
      (run env st).state.weather_data = none
      ∧ (run env st).state.weekly_outlook = none)
    ∧ (∀ env st info wd cc cardinal alert_effs dlt,
      st.weather_data = none →
      get_station_info env.stations_resp = some info →
      env.forecast_resp = some wd →
      parse_current_conditions wd = some cc →
      deg_to_compass_of_jval cc.wind_direction = some cardinal →
      alerts_view (get_nws_alerts env.alerts_resp) = some alert_effs →
      trend_delta cc.pressure_trend = some dlt →
      metrics_ok cc = true →
      env.refresh_clicked = false →
      (run env st).state.weather_data = some wd
      ∧ (run env st).state.weekly_outlook =
          cache_of (ask_gemini_smartly env.invoke
            (outlook_prompt (daily_forecast_text_of env.day_name wd)))) := by
  constructor
  · intro env st data alerts cc cardinal alert_effs dlt h1 h2 h3 h4 h5 h6 h7 h8
    rw [run_cached env st data h1,
      run_body_good env st data alerts cc cardinal alert_effs dlt [] h1 h2 h3
        h4 h5 h6 h7]
    exact refresh_step_clicked env _ h8
  · intro env st info wd cc cardinal alert_effs dlt h1 h2 h3 h4 h5 h6 h7 h8
    rw [run_fetch env st info wd h1 h2 h3,
      run_body_good env _ wd (get_nws_alerts env.alerts_resp) cc cardinal
        alert_effs dlt _ rfl rfl h4 h5 h6 h7 h8]
    intro h9
    rw [refresh_step_not_clicked env _ h9]
    constructor
    · rw [chat_step_weather_data, outlook_step_weather_data]
    · rw [chat_step_weekly_outlook, outlook_step_weekly_outlook _ _ _ rfl]

def refresh_env : Env :=
  { stations_resp := none, forecast_resp := none, alerts_resp := none,
    invoke := fun _ _ => none, day_name := fun _ => "Monday",
    chat_input := none, refresh_clicked := true }

def rendered_state : SessionState :=
  { messages := [], weather_data := some (JVal.jobj []), station_info := none,
    alerts := some [], weekly_outlook := some "old outlook" }

/-- Witness for C3: clicking refresh on a rendered dashboard clears both
caches; a following run with an empty cache refetches and regenerates. -/
theorem refresh_clears_and_regenerates_witness :
    ((run refresh_env rendered_state).state.weather_data = none
      ∧ (run refresh_env rendered_state).state.weekly_outlook = none)
    ∧ ((run alerts_fail_env st_empty).state.weather_data = some (JVal.jobj [])
      ∧ (run alerts_fail_env st_empty).state.weekly_outlook =
          cache_of (ask_gemini_smartly alerts_fail_env.invoke
            (outlook_prompt
              (daily_forecast_text_of alerts_fail_env.day_name (JVal.jobj []))))) :=
  ⟨refresh_clears_and_regenerates.1 refresh_env rendered_state (JVal.jobj [])
      [] default_conditions "N" [] none rfl rfl rfl
      deg_to_compass_of_jval_zero rfl rfl rfl rfl,
   refresh_clears_and_regenerates.2 alerts_fail_env st_empty
      ⟨JVal.jnum 1, JVal.jnum 2, JVal.jnum 3⟩ (JVal.jobj [])
      default_conditions "N" [] none rfl rfl rfl rfl
      deg_to_compass_of_jval_zero rfl rfl rfl rfl⟩

/- ===== C4 ===== -/

/-- C4: every chat invocation appends the question and then the answer to
the conversation, exactly once each; when every model candidate fails the
appended answer is the fixed unavailability message and the outlook cache
stays unset, so the next outlook access invokes the candidates again. -/
theorem chat_appends_in_order :
    ∀ env st data alerts cc cardinal alert_effs dlt q,
      st.weather_data = some data → st.alerts = some alerts →
      parse_current_conditions data = some cc →
      deg_to_compass_of_jval cc.wind_direction = some cardinal →
      alerts_view alerts = some alert_effs →
      trend_delta cc.pressure_trend = some dlt →
      metrics_ok cc = true →
      env.chat_input = some q →
      ((run env st).state.messages =
        st.messages ++ [(⟨"user", q⟩ : Message),
          ⟨"assistant",
            answer_of (ask_gemini_smartly env.invoke
              (system_context cc.sea_level_pressure cc.pressure_trend
                cc.relative_humidity cc.air_temperature cc.wind_avg cardinal
                cc.precip_accum_local_day
                (daily_forecast_text_of env.day_name data) q))⟩]
      ∧ ((∀ m pt, m ∈ models_to_try → env.invoke m pt = none) →
          st.weekly_outlook = none →
          (run env st).state.messages =
            st.messages ++ [(⟨"user", q⟩ : Message),
              ⟨"assistant", fallback_msg⟩]
          ∧ (run env st).state.weekly_outlook = none)) := by
  intro env st data alerts cc cardinal alert_effs dlt q h1 h2 h3 h4 h5 h6 h7 h8
  rw [run_cached env st data h1,
    run_body_good env st data alerts cc cardinal alert_effs dlt [] h1 h2 h3 h4
      h5 h6 h7]
  constructor
  · rw [refresh_step_messages, chat_step_messages _ _ _ _ _ _ h8,
      outlook_step_messages]
  · intro hall hwo
    have hnone : ∀ pt, ask_gemini_smartly env.invoke pt = none := fun pt =>
      try_models_none env.invoke pt models_to_try (fun m hm => hall m pt hm)
    constructor
    · rw [refresh_step_messages, chat_step_messages _ _ _ _ _ _ h8,
        outlook_step_messages, hnone]
      rfl
    · refine refresh_step_weekly_outlook_none _ _ ?_
      rw [chat_step_weekly_outlook, outlook_step_weekly_outlook _ _ _ hwo,
        hnone]
      rfl

def chat_fail_env : Env :=
  { stations_resp := none, forecast_resp := none, alerts_resp := none,
    invoke := fun _ _ => none, day_name := fun _ => "Monday",
    chat_input := some "Will it rain?", refresh_clicked := false }

def chat_state : SessionState :=
  { messages := [⟨"assistant", "hello"⟩], weather_data := some (JVal.jobj []),
    station_info := none, alerts := some [], weekly_outlook := none }

/-- Witness for C4: every candidate fails, the question and the fixed
unavailability message are appended once each, the outlook cache stays
unset. -/
theorem chat_appends_in_order_witness :
    (run chat_fail_env chat_state).state.messages =
      chat_state.messages ++ [(⟨"user", "Will it rain?"⟩ : Message),
        ⟨"assistant", fallback_msg⟩]
    ∧ (run chat_fail_env chat_state).state.weekly_outlook = none :=
  (chat_appends_in_order chat_fail_env chat_state (JVal.jobj []) []
    default_conditions "N" [] none "Will it rain?" rfl rfl rfl
    deg_to_compass_of_jval_zero rfl rfl rfl rfl).2 (fun _ _ _ => rfl) rfl

/- ===== C5 (corrected) ===== -/

/-- C5 corrected, amended claim: the chat operation assembles one prompt
that embeds the current metric values, the forecast summary text and the
user question literally (with the role framing of the template), then
delegates it to the fallback-capable invocation logic; the active alerts
are not part of the prompt. -/
theorem qna_prompt_assembly (env : Env) (st : SessionState)
    (cc : CurrentConditions) (cardinal daily q : String)
    (h : env.chat_input = some q) :
    (chat_step env st cc cardinal daily).messages =
      st.messages ++ [(⟨"user", q⟩ : Message),
        ⟨"assistant", answer_of (ask_gemini_smartly env.invoke
          (system_context cc.sea_level_pressure cc.pressure_trend
            cc.relative_humidity cc.air_temperature cc.wind_avg cardinal
            cc.precip_accum_local_day daily q))⟩]
    ∧ ∃ p1 p2 p3,
        system_context cc.sea_level_pressure cc.pressure_trend
          cc.relative_humidity cc.air_temperature cc.wind_avg cardinal
          cc.precip_accum_local_day daily q
        = p1 ++ (daily ++ (p2 ++ (q ++ p3))) := by
  refine ⟨chat_step_messages env st cc cardinal daily q h,
    "\n        Act as a Meteorology Professor for Ramsey Ct.\n" ++
    "        LIVE DATA:\n" ++
    "        - Pressure: " ++ cc.sea_level_pressure.pyStr ++ " inHg (" ++
    cc.pressure_trend.pyStr ++ ")\n" ++
    "        - Humidity: " ++ cc.relative_humidity.pyStr ++ "%\n" ++
    "        - Temp: " ++ cc.air_temperature.pyStr ++ " F\n" ++
    "        - Wind: " ++ cc.wind_avg.pyStr ++ " mph (from " ++ cardinal ++
    ")\n" ++
    "        - Rain Today: " ++ cc.precip_accum_local_day.pyStr ++
    " inches\n" ++
    "        FORECAST:\n        ",
    "\n        USER QUESTION: \"", "\"\n        ", ?_⟩
  simp only [system_context, String.append_assoc]

def qa_env : Env :=
  { stations_resp := none, forecast_resp := none, alerts_resp := none,
    invoke := fun _ p => some p, day_name := fun _ => "Monday",
    chat_input := some "Will it rain?", refresh_clicked := false }

def tornado_alert : JVal :=
  JVal.jobj [("severity", JVal.jstr "Extreme"),
             ("event", JVal.jstr "Tornado Warning"),
             ("senderName", JVal.jstr "NWS"),
             ("description", JVal.jstr "A tornado is nearby")]

def qa_state (alerts : List JVal) : SessionState :=
  { messages := [], weather_data := some (JVal.jobj []), station_info := none,
    alerts := some alerts, weekly_outlook := some "cached outlook" }

/-- Counterexample for C5 as stated: with the model invocation echoing
the prompt back, a session holding an extreme tornado alert and the same
session with no alerts produce identical conversations — the assembled
prompt does not embed the active alerts. -/
theorem qna_ignores_alerts_counterexample :
    (qa_state [tornado_alert]).alerts ≠ (qa_state []).alerts
    ∧ (run qa_env (qa_state [tornado_alert])).state.messages =
      (run qa_env (qa_state [])).state.messages := by
  constructor
  · simp [qa_state]
  · rw [run_cached qa_env (qa_state [tornado_alert]) (JVal.jobj []) rfl,
      run_cached qa_env (qa_state []) (JVal.jobj []) rfl,
      run_body_good qa_env (qa_state [tornado_alert]) (JVal.jobj [])
        [tornado_alert] default_conditions "N" [Effect.show_alert tornado_alert]
        none [] rfl rfl rfl deg_to_compass_of_jval_zero rfl rfl rfl,
      run_body_good qa_env (qa_state []) (JVal.jobj []) [] default_conditions
        "N" [] none [] rfl rfl rfl deg_to_compass_of_jval_zero rfl rfl rfl]
    simp only [refresh_step_messages, outlook_step_messages]
    rw [chat_step_messages _ _ _ _ _ _ rfl, chat_step_messages _ _ _ _ _ _ rfl,
      outlook_step_messages, outlook_step_messages]
    rfl

/- ===== C8 (corrected) ===== -/

/-- C8 corrected, amended claim: extracting the current conditions never
raises on missing fields — every absent field is substituted by its
default: the string Unknown for the conditions text, numeric zero for the
six numeric fields, and the empty string (not Unknown) for the
pressure-trend text. -/
theorem parse_missing_fields_default (dfs cfs : List (String × JVal))
    (h : dfs.lookup "current_conditions" = some (JVal.jobj cfs)
       ∨ (dfs.lookup "current_conditions" = none ∧ cfs = [])) :
    ∃ cc, parse_current_conditions (JVal.jobj dfs) = some cc
      ∧ (cfs.lookup "conditions" = none → cc.conditions = JVal.jstr "Unknown")
      ∧ (cfs.lookup "air_temperature" = none → cc.air_temperature = JVal.jnum 0)
      ∧ (cfs.lookup "relative_humidity" = none →
          cc.relative_humidity = JVal.jnum 0)
      ∧ (cfs.lookup "wind_avg" = none → cc.wind_avg = JVal.jnum 0)
      ∧ (cfs.lookup "wind_direction" = none → cc.wind_direction = JVal.jnum 0)
      ∧ (cfs.lookup "precip_accum_local_day" = none →
          cc.precip_accum_local_day = JVal.jnum 0)
      ∧ (cfs.lookup "sea_level_pressure" = none →
          cc.sea_level_pressure = JVal.jnum 0)
      ∧ (cfs.lookup "pressure_trend" = none →
          cc.pressure_trend = JVal.jstr "") := by
  have hcur : (JVal.jobj dfs).pyGet "current_conditions" (JVal.jobj []) =
      some (JVal.jobj cfs) := by
    rcases h with h | ⟨h, rfl⟩ <;> simp [JVal.pyGet, h]
  refine ⟨⟨(cfs.lookup "conditions").getD (JVal.jstr "Unknown"),
          (cfs.lookup "air_temperature").getD (JVal.jnum 0),
          (cfs.lookup "relative_humidity").getD (JVal.jnum 0),
          (cfs.lookup "wind_avg").getD (JVal.jnum 0),
          (cfs.lookup "wind_direction").getD (JVal.jnum 0),
          (cfs.lookup "precip_accum_local_day").getD (JVal.jnum 0),
          (cfs.lookup "sea_level_pressure").getD (JVal.jnum 0),
          (cfs.lookup "pressure_trend").getD (JVal.jstr "")⟩,
    ?_, ?_, ?_, ?_, ?_, ?_, ?_, ?_, ?_⟩
  · simp only [parse_current_conditions, hcur, Option.some_bind]
    simp [JVal.pyGet]
  all_goals intro hx
  all_goals simp [hx]

/-- Witness for C8: an entirely empty response object parses, with every
field at its default. -/
theorem parse_missing_fields_default_witness :
    ∃ cc, parse_current_conditions (JVal.jobj []) = some cc
      ∧ (([] : List (String × JVal)).lookup "conditions" = none →
          cc.conditions = JVal.jstr "Unknown")
      ∧ (([] : List (String × JVal)).lookup "air_temperature" = none →
          cc.air_temperature = JVal.jnum 0)
      ∧ (([] : List (String × JVal)).lookup "relative_humidity" = none →
          cc.relative_humidity = JVal.jnum 0)
      ∧ (([] : List (String × JVal)).lookup "wind_avg" = none →
          cc.wind_avg = JVal.jnum 0)
      ∧ (([] : List (String × JVal)).lookup "wind_direction" = none →
          cc.wind_direction = JVal.jnum 0)
      ∧ (([] : List (String × JVal)).lookup "precip_accum_local_day" = none →
          cc.precip_accum_local_day = JVal.jnum 0)
      ∧ (([] : List (String × JVal)).lookup "sea_level_pressure" = none →
          cc.sea_level_pressure = JVal.jnum 0)
      ∧ (([] : List (String × JVal)).lookup "pressure_trend" = none →
          cc.pressure_trend = JVal.jstr "") :=
  parse_missing_fields_default [] [] (Or.inr ⟨rfl, rfl⟩)

/-- Counterexample for C8 as stated: on a response with no fields at all,
the pressure-trend text field defaults to the empty string, not to
Unknown as the claim says of every text field. -/
theorem parse_trend_default_counterexample :
    (parse_current_conditions (JVal.jobj [])).map CurrentConditions.pressure_trend
      = some (JVal.jstr "")
    ∧ (parse_current_conditions (JVal.jobj [])).map CurrentConditions.pressure_trend
      ≠ some (JVal.jstr "Unknown") := by
  refine ⟨rfl, ?_⟩
  intro h
  simp [parse_current_conditions, JVal.pyGet] at h

/-- Witness for C5: the prompt assembled for a concrete question embeds
the forecast text and the question, and the answer delegates to the
fallback logic. -/
theorem qna_prompt_assembly_witness :
    (chat_step qa_env st_empty default_conditions "N" "the daily text").messages =
      st_empty.messages ++ [(⟨"user", "Will it rain?"⟩ : Message),
        ⟨"assistant", answer_of (ask_gemini_smartly qa_env.invoke
          (system_context default_conditions.sea_level_pressure
            default_conditions.pressure_trend
            default_conditions.relative_humidity
            default_conditions.air_temperature default_conditions.wind_avg "N"
            default_conditions.precip_accum_local_day "the daily text"
            "Will it rain?"))⟩]
    ∧ ∃ p1 p2 p3,
        system_context default_conditions.sea_level_pressure
          default_conditions.pressure_trend
          default_conditions.relative_humidity
          default_conditions.air_temperature default_conditions.wind_avg "N"
          default_conditions.precip_accum_local_day "the daily text"
          "Will it rain?"
        = p1 ++ ("the daily text" ++ (p2 ++ ("Will it rain?" ++ p3))) :=
  qna_prompt_assembly qa_env st_empty default_conditions "N" "the daily text"
    "Will it rain?" rfl

/-- Witness for C9 at a negative degree input. -/
theorem deg_to_compass_total_witness :
    (0 ≤ pyTrunc ((-100) / 22.5 + 0.5) % 16
      ∧ pyTrunc ((-100) / 22.5 + 0.5) % 16 < 16)
    ∧ ∃ l, deg_to_compass (some (-100)) = some l ∧ l ∈ compass_labels :=
  deg_to_compass_total (-100)

/-- Witness for C10 with every candidate failing. -/
theorem ask_gemini_smartly_never_raises_witness :
    ask_gemini_smartly (fun _ _ => none) "p" =
      (models_to_try.filterMap
        (fun m => (fun (_ _ : String) => (none : Option String)) m "p")).head? :=
  ask_gemini_smartly_never_raises (fun _ _ => none) "p"
